import Mathlib

/-!
# Verification of the simcado_to_scopesim photometry pipeline

Shallow embedding of the repository sources:
  * `src/photometry.py`               (candidate finder, PSF builders, FWHM estimate)
  * `src/hypertuning.py`              (hyperparameter-search objective and driver)
  * `src/thesis_lib/scopesim_helper.py` (coordinate conversions)

Numeric values that Python holds as floats are embedded as exact
rationals `ℚ`; quantities that the code obtains by taking a real square
root (Euclidean distances, the optimizer loss) are embedded in `ℝ`.
Python exceptions are embedded as `Except String`.
-/

namespace Photometry

/-- A row of a peak table: the detection coordinates, together with an
identifier standing for all the remaining columns of the row
(`DAOStarFinder` output columns such as flux, sharpness, ...).  Only
`x` and `y` are inspected by the filters in `src/photometry.py`. -/
structure PeakRow where
  x : ℚ
  y : ℚ
  id : ℕ
  deriving DecidableEq, Repr, Inhabited

/-- Module-level magic parameter `cutout_size = 50` of `src/photometry.py`. -/
def cutout_size : ℚ := 50

/-- Embedding of `cut_edges` (src/photometry.py lines 77-82):
keeps the rows of the table whose coordinates satisfy
`half < x < image_size - half` and the same for `y`,
where `half = box_size / 2` (Python true division). -/
def cut_edges (peak_table : List PeakRow) (box_size : ℚ) (image_size : ℚ) :
    List PeakRow :=
  let half := box_size / 2
  peak_table.filter fun r =>
    half < r.x ∧ r.x < image_size - half ∧ half < r.y ∧ r.y < image_size - half

/-- The edge filter as `make_stars_guess` applies it
(src/photometry.py line 134): the box size is the configured
`cutout_size`, the image size is `image.shape[0]`. -/
def make_stars_guess_edge_filter (peak_table : List PeakRow) (image_size : ℚ) :
    List PeakRow :=
  cut_edges peak_table cutout_size image_size

/-- A 2D numeric array (numpy 2D `ndarray`), as a list of rows. -/
abbrev Kernel := List (List ℚ)

/-- `array.shape[0]`: the number of rows. -/
def shape0 (k : Kernel) : ℕ := k.length

/-- `array.shape[1]`: the length of the (uniform) rows; numpy stores it
once, here read off the first row. -/
def shape1 (k : Kernel) : ℕ := (k.headD []).length

/-- The array is square: every row is as long as the list of rows. -/
def IsSquare (k : Kernel) : Prop := ∀ row ∈ k, row.length = k.length

instance (k : Kernel) : Decidable (IsSquare k) := by
  unfold IsSquare
  infer_instance

/-- `np.sum(k)`: total of all entries. -/
def total (k : Kernel) : ℚ := (k.map List.sum).sum

/-- Modelled from the spec: the normalization step of the PSF builders
("Both must yield a model normalizable to unit flux").  It lives in the
external `photutils` library, not in this repository: for
`make_epsf_combine` it is the `EPSFModel(..., flux=None)` constructor
("flux=None should force normalization", src/photometry.py line 160),
for `make_epsf_fit` it is the normalization `EPSFBuilder` applies to
its result.  The kernel is divided entrywise by its total flux. -/
def normalize (k : Kernel) : Kernel :=
  k.map fun row => row.map fun v => v / total k

/-- An `EPSFModel`: the `psfmodel.data` kernel and the per-axis
`psfmodel.oversampling` factors. -/
structure EPSF where
  data : Kernel
  oversampling : ℕ × ℕ
  deriving DecidableEq, Repr

/-- A star cutout (`photutils.psf.EPSFStar`): the cutout data and its
`cutout_center`. -/
structure Star where
  data : Kernel
  cutout_center : ℚ × ℚ
  deriving DecidableEq, Repr

/-- Module-level magic parameter `oversampling = 4` of src/photometry.py. -/
def oversampling : ℕ := 4

/-- Local constant `upsample_factor = 4` of `make_epsf_combine`. -/
def upsample_factor : ℕ := 4

/-- Median of a list with numpy semantics (`np.median`): sort, take the
middle element for odd length, the mean of the two middle elements for
even length.  (For the empty list numpy emits `nan` with a warning; the
embedding yields the degenerate value 0 there.) -/
def median (l : List ℚ) : ℚ :=
  let s := l.mergeSort (· ≤ ·)
  if l.length % 2 = 1 then s.getD (l.length / 2) 0
  else (s.getD (l.length / 2 - 1) 0 + s.getD (l.length / 2) 0) / 2

/-- An `n × m` grid built from an entry function. -/
def gridOf (n m : ℕ) (f : ℕ → ℕ → ℚ) : Kernel :=
  (List.range n).map fun i => (List.range m).map fun j => f i j

/-- `np.median(stack, axis=0)`: the pointwise median across a stack of
same-shaped arrays; the result has the shape of the stack elements
(read off the first one; an empty stack degenerates to the empty
array, numpy would emit `nan`). -/
def medianStack (ks : List Kernel) : Kernel :=
  match ks with
  | [] => []
  | k :: _ =>
    gridOf (shape0 k) (shape1 k) fun i j =>
      median (ks.map fun k2 => (k2.getD i []).getD j 0)

/-- `avg_center` of `make_epsf_combine` (src/photometry.py line 149):
`np.sum([star.cutout_center for star in stars], axis=0) / len(stars)`.
(With zero stars Python divides `0.0` by `0`, yielding `nan` with a
warning; the embedding yields the degenerate value 0.) -/
def avg_center (stars : List Star) : ℚ × ℚ :=
  ((stars.map fun st => st.cutout_center.1).sum / stars.length,
   (stars.map fun st => st.cutout_center.2).sum / stars.length)

/-- The stacking step of `make_epsf_combine` (src/photometry.py lines
152-156): each cutout is resampled by the external FFT routine
`upsample_image` (abstracted as the `upsample` argument: factor,
xshift, yshift, data) with shifts `cutout_center - avg_center`, and the
pointwise median across the resulting stack is taken. -/
def combined (upsample : ℕ → ℚ → ℚ → Kernel → Kernel) (stars : List Star) :
    Kernel :=
  medianStack (stars.map fun star =>
    upsample upsample_factor
      (star.cutout_center.1 - (avg_center stars).1)
      (star.cutout_center.2 - (avg_center stars).2)
      star.data)

/-- Embedding of `make_epsf_combine` (src/photometry.py lines 144-160),
starting from the extracted star cutouts: stack-and-median the aligned
upsampled cutouts, wrap them in an `EPSFModel` with `flux=None`
(normalization) and `oversampling=upsample_factor` (broadcast to both
axes).  There is no emptiness check and no failure channel. -/
def make_epsf_combine (upsample : ℕ → ℚ → ℚ → Kernel → Kernel)
    (stars : List Star) : EPSF :=
  ⟨normalize (combined upsample stars), (upsample_factor, upsample_factor)⟩

/-- Embedding of `make_epsf_fit` (src/photometry.py lines 164-180),
starting from the extracted star cutouts.  The iterative
combine/smooth/recenter algorithm is the external
`photutils.EPSFBuilder`, abstracted as the `core` argument; the
builder normalizes its resulting kernel, and the model carries the
configured `oversampling` on both axes.  There is no emptiness check
and no failure channel. -/
def make_epsf_fit (core : List Star → Kernel) (stars : List Star) : EPSF :=
  ⟨normalize (core stars), (oversampling, oversampling)⟩

/-- Embedding of `FWHM_estimate` (src/photometry.py lines 98-121).  The
nonlinear 2D-Gaussian fit (`LevMarLSQFitter` on a `Gaussian2D` with
tied stddevs) is the external astropy fitter, abstracted as the
`fitFwhm` argument returning the fitted `x_fwhm`.  The function first
asserts that the kernel is square, then that the oversampling is equal
on both axes (raising `AssertionError` otherwise), and returns the
fitted FWHM divided by `oversampling[0]`. -/
def FWHM_estimate (fitFwhm : Kernel → ℚ) (psf : EPSF) : Except String ℚ :=
  if shape0 psf.data ≠ shape1 psf.data then Except.error "AssertionError"
  else if psf.oversampling.1 ≠ psf.oversampling.2 then
    Except.error "AssertionError"
  else Except.ok (fitFwhm psf.data / (psf.oversampling.1 : ℚ))

/-- Euclidean distance between two points with rational coordinates,
as the real number scipy's `cKDTree` reports. -/
noncomputable def dist2d (p q : ℚ × ℚ) : ℝ :=
  Real.sqrt (((p.1 - q.1) ^ 2 + (p.2 - q.2) ^ 2 : ℚ) : ℝ)

/-- Minimum of a list of reals, `none` for the empty list. -/
noncomputable def minOpt : List ℝ → Option ℝ
  | [] => none
  | d :: ds =>
    match minOpt ds with
    | none => some d
    | some m => some (min d m)

/-- The `nearest` column value of row `i` computed by the loop of
`cut_close_stars` (src/photometry.py lines 86-92): the `cKDTree` built
over all rows is queried with `k=[2]`, returning the distance to the
second-nearest tree point — the first is the queried star itself at
distance 0, so this is the minimum distance to the other rows.  With a
single row scipy reports `inf` for the missing neighbour; the embedding
returns `none` there. -/
noncomputable def nearestDist (rows : List PeakRow) (i : ℕ) : Option ℝ :=
  minOpt (((List.range rows.length).filter fun j => j ≠ i).map fun j =>
    dist2d ((rows.getD i default).x, (rows.getD i default).y)
           ((rows.getD j default).x, (rows.getD j default).y))

open scoped Classical in
/-- Embedding of `cut_close_stars` (src/photometry.py lines 85-95):
after filling the `nearest` column, the table is restricted to the rows
with `nearest > cutoff_dist` (strict comparison).  A missing neighbour
(`inf` in scipy) exceeds every cutoff, so a lone row is kept. -/
noncomputable def cut_close_stars (rows : List PeakRow) (cutoff_dist : ℝ) :
    List PeakRow :=
  (((List.range rows.length).filter fun i =>
      match nearestDist rows i with
      | none => true
      | some m => decide (cutoff_dist < m)).map fun i => rows.getD i default)

end Photometry

namespace ScopesimHelper

/-!
Embedding of the coordinate conversions of
`src/thesis_lib/scopesim_helper.py` (lines 17-50).  The module constants
are `pixel_count = 1024` pixels, `pixel_scale = 0.004` arcsec/pixel and
`max_pixel_coord = pixel_count - 1 = 1023` pixels; the functions strip
the astropy units and return the bare numbers, so the embedding works on
plain rationals.
-/

/-- `pixel_count = 1024 * u.pixel`. -/
def pixel_count : ℚ := 1024

/-- `pixel_scale = 0.004 * u.arcsec/u.pixel`. -/
def pixel_scale : ℚ := 4 / 1000

/-- `max_pixel_coord = pixel_count - 1 * u.pixel`. -/
def max_pixel_coord : ℚ := pixel_count - 1

/-- Embedding of `to_pixel_scale`: converts an arcsecond coordinate to a
pixel coordinate via `as_coord / pixel_scale + max_pixel_coord / 2`. -/
def to_pixel_scale (as_coord : ℚ) : ℚ :=
  as_coord / pixel_scale + max_pixel_coord / 2

/-- Embedding of `pixel_to_mas`: converts a pixel coordinate back via
`(px_coord - max_pixel_coord / 2) * pixel_scale`. -/
def pixel_to_mas (px_coord : ℚ) : ℚ :=
  (px_coord - max_pixel_coord / 2) * pixel_scale

end ScopesimHelper

namespace Hypertuning

/-- The argument vector handed to `objective` by `optimizer.ask()`
(src/hypertuning.py line 23): `cutout_size, fitshape_half, sigma, iters`. -/
structure Params where
  cutout_size : ℤ
  fitshape_half : ℤ
  sigma : ℚ
  iters : ℤ
  deriving DecidableEq, Repr

/-- A matched result table, reduced to its per-star `offset` column
(the only column `objective` reads, src/hypertuning.py line 39).
Offsets are Euclidean distances, hence real-valued. -/
def ResultTable : Type := List ℝ

/-- Embedding of `loss = np.sqrt(np.sum(result_table[offset]**2))`
(src/hypertuning.py line 39): the root-sum-of-squares of the offsets. -/
noncomputable def loss (offsets : List ℝ) : ℝ :=
  Real.sqrt ((offsets.map (fun o => o ^ 2)).sum)

/-- Embedding of `objective` (src/hypertuning.py lines 23-42).  The body
up to the matched result table (config setup, `read_or_generate_image`,
`run_photometry`, `match_observation_to_source`, all defined in the
`thesis_lib` package outside `src/`) is abstracted as the `pipeline`
argument, an `Except`-valued step that either produces the matched
offsets or raises.  The bare `except:` clause turns any raise into the
sentinel return value `100`; otherwise the computed loss is returned. -/
noncomputable def objective (pipeline : Params → Except String (List ℝ))
    (p : Params) : ℝ :=
  match pipeline p with
  | Except.ok offsets => loss offsets
  | Except.error _ => 100

/-- Modelled from the spec: the external Bayesian optimizer (`skopt`),
abstracted to the count of accumulated (params, loss) observations —
the only attribute the resume-semantics claim inspects. -/
structure Optimizer where
  n_observations : ℕ
  deriving DecidableEq, Repr

/-- The freshly constructed `Optimizer(...)` of src/hypertuning.py
lines 51-58: no observations have been told to it yet. -/
def freshOptimizer : Optimizer := ⟨0⟩

/-- Embedding of the startup block (src/hypertuning.py lines 47-58).
The on-disk state is `none` when `optimize_result_RF_expanded.pkl` does
not exist and `some st` when it exists and `dill.load` yields `st`:
if the file exists the optimizer is deserialized from it, otherwise a
fresh optimizer is constructed. -/
def startup (file : Option Optimizer) : Optimizer :=
  match file with
  | some st => st
  | none => freshOptimizer

/-- Embedding of the completion-collection pass
(src/hypertuning.py lines 81-84)

    for job in jobs:
        if job.result.ready():
            optimizer.tell(job.args, job.result.get())
            jobs.remove(job)

under CPython semantics: the list iterator keeps an index `i`, yields
`jobs[i]` and advances to `i + 1` before the body runs; `list.remove`
deletes the first occurrence of the element, shifting the tail left, and
the iterator index is not adjusted.  Jobs are identified by a natural
number; readiness during one pass is a fixed predicate (each job is
polled once).  Returns the list of jobs told to the optimizer (in
order) and the list remaining afterwards.  The fuel argument is an
upper bound on the number of iterator steps: the index grows by one per
step, so `jobs.length + 1` steps always suffice. -/
def tellPassAux (ready : ℕ → Bool) : ℕ → List ℕ → ℕ → List ℕ × List ℕ
  | 0, jobs, _ => ([], jobs)
  | fuel + 1, jobs, i =>
    if h : i < jobs.length then
      let j := jobs.get ⟨i, h⟩
      if ready j then
        let r := tellPassAux ready fuel (jobs.erase j) (i + 1)
        (j :: r.1, r.2)
      else
        tellPassAux ready fuel jobs (i + 1)
    else ([], jobs)

/-- One pass of the completion-collection loop over the current jobs
list, starting from iterator index 0. -/
def tellPass (ready : ℕ → Bool) (jobs : List ℕ) : List ℕ × List ℕ :=
  tellPassAux ready (jobs.length + 1) jobs 0

end Hypertuning

namespace Photometry

theorem sum_map_div (l : List ℚ) (c : ℚ) :
    (l.map fun v => v / c).sum = l.sum / c := by
  induction l with
  | nil => simp
  | cons a t ih => simp [ih, add_div]

theorem total_map_div (k : Kernel) (c : ℚ) :
    total (k.map fun row => row.map fun v => v / c) = total k / c := by
  induction k with
  | nil => simp [total]
  | cons row t ih =>
    unfold total at ih ⊢
    simp only [List.map_cons, List.sum_cons]
    rw [sum_map_div, ih, add_div]

/-- Dividing a kernel by its (nonzero) total flux yields unit total flux. -/
theorem total_normalize (k : Kernel) (h : total k ≠ 0) :
    total (normalize k) = 1 := by
  unfold normalize
  rw [total_map_div, div_self h]

theorem isSquare_normalize (k : Kernel) (h : IsSquare k) :
    IsSquare (normalize k) := by
  intro row hrow
  unfold normalize at hrow ⊢
  simp only [List.length_map]
  obtain ⟨row0, hmem, rfl⟩ := List.mem_map.mp hrow
  simpa using h row0 hmem

theorem isSquare_gridOf (n : ℕ) (f : ℕ → ℕ → ℚ) : IsSquare (gridOf n n f) := by
  intro row hrow
  unfold gridOf at hrow ⊢
  simp only [List.length_map, List.length_range]
  obtain ⟨i, _, rfl⟩ := List.mem_map.mp hrow
  simp

theorem shape1_of_isSquare (k : Kernel) (h : IsSquare k) :
    shape1 k = shape0 k := by
  cases k with
  | nil => rfl
  | cons r t => exact h r (List.mem_cons_self r t)

/-- The pointwise median of a stack of square arrays is square. -/
theorem isSquare_medianStack (ks : List Kernel) (h : ∀ k ∈ ks, IsSquare k) :
    IsSquare (medianStack ks) := by
  cases ks with
  | nil => intro row hrow; simp [medianStack] at hrow
  | cons k t =>
    show IsSquare (gridOf (shape0 k) (shape1 k) _)
    rw [shape1_of_isSquare k (h k (List.mem_cons_self k t))]
    exact isSquare_gridOf _ _

end Photometry

/-- **C1.** For every input peak table, box size `b` and image size `s`,
`cut_edges` returns exactly the rows whose coordinates satisfy
`b/2 < x < s - b/2` and `b/2 < y < s - b/2`, with strict inequalities
(all other rows are discarded); and `make_stars_guess` applies it with
the configured `cutout_size` as the box size. -/
theorem C1_cut_edges_exact (t : List Photometry.PeakRow) (b s : ℚ) :
    (∀ r : Photometry.PeakRow,
      r ∈ Photometry.cut_edges t b s ↔
        r ∈ t ∧ (b / 2 < r.x ∧ r.x < s - b / 2 ∧ b / 2 < r.y ∧ r.y < s - b / 2)) ∧
    Photometry.make_stars_guess_edge_filter t s =
      Photometry.cut_edges t Photometry.cutout_size s := by
  constructor
  · intro r
    simp [Photometry.cut_edges, List.mem_filter]
  · rfl

/-- **C10.** The coordinate conversions are mutually inverse:
`pixel_to_mas (to_pixel_scale a) = a` for every arcsecond coordinate `a`
and `to_pixel_scale (pixel_to_mas p) = p` for every pixel coordinate `p`;
moreover `to_pixel_scale a = a / pixel_scale + (pixel_count - 1) / 2`. -/
theorem C10_coordinate_roundtrip (a p : ℚ) :
    ScopesimHelper.pixel_to_mas (ScopesimHelper.to_pixel_scale a) = a ∧
    ScopesimHelper.to_pixel_scale (ScopesimHelper.pixel_to_mas p) = p ∧
    ScopesimHelper.to_pixel_scale a =
      a / ScopesimHelper.pixel_scale + (ScopesimHelper.pixel_count - 1) / 2 := by
  refine ⟨?_, ?_, rfl⟩
  · unfold ScopesimHelper.pixel_to_mas ScopesimHelper.to_pixel_scale
      ScopesimHelper.pixel_scale ScopesimHelper.max_pixel_coord
      ScopesimHelper.pixel_count
    ring
  · unfold ScopesimHelper.pixel_to_mas ScopesimHelper.to_pixel_scale
      ScopesimHelper.pixel_scale ScopesimHelper.max_pixel_coord
      ScopesimHelper.pixel_count
    ring

/-- **C5.** For every parameter vector, if any step inside the
hyperparameter-search objective raises, the objective returns the fixed
sentinel penalty `100` and never propagates the exception (its return
type carries no error); if no step raises, it returns the computed
loss of the matched result table. -/
theorem C5_objective_sentinel (pipeline : Hypertuning.Params → Except String (List ℝ))
    (p : Hypertuning.Params) :
    ((pipeline p).isOk = false → Hypertuning.objective pipeline p = 100) ∧
    (∀ offsets, pipeline p = Except.ok offsets →
      Hypertuning.objective pipeline p = Hypertuning.loss offsets) := by
  constructor
  · intro h
    unfold Hypertuning.objective
    cases hp : pipeline p with
    | ok offsets => rw [hp] at h; simp [Except.isOk, Except.toBool] at h
    | error e => rfl
  · intro offsets h
    unfold Hypertuning.objective
    rw [h]

/-- Witness for C5: a pipeline that raises yields the sentinel `100`; a
pipeline that succeeds yields the computed loss. -/
theorem C5_objective_sentinel_witness :
    Hypertuning.objective (fun _ => Except.error "fail") ⟨5, 5, 3 / 10, 5⟩ = 100 ∧
    Hypertuning.objective (fun _ => Except.ok [0]) ⟨5, 5, 3 / 10, 5⟩ =
      Hypertuning.loss [0] := by
  constructor
  · exact (C5_objective_sentinel (fun _ => Except.error "fail") ⟨5, 5, 3 / 10, 5⟩).1 rfl
  · exact (C5_objective_sentinel (fun _ => Except.ok [0]) ⟨5, 5, 3 / 10, 5⟩).2 [0] rfl

/-- **C6.** For every matched result table with per-star positional
offsets, the scalar loss fed to the optimizer (the value `objective`
returns when the pipeline succeeds) is the root-sum-of-squares of the
offsets: it is nonnegative and its square is the sum of the squared
offsets. -/
theorem C6_loss_is_rss (pipeline : Hypertuning.Params → Except String (List ℝ))
    (p : Hypertuning.Params) (offsets : List ℝ)
    (h : pipeline p = Except.ok offsets) :
    0 ≤ Hypertuning.objective pipeline p ∧
    (Hypertuning.objective pipeline p) ^ 2 = (offsets.map (fun o => o ^ 2)).sum := by
  have hobj : Hypertuning.objective pipeline p = Hypertuning.loss offsets := by
    unfold Hypertuning.objective
    rw [h]
  have hsum : 0 ≤ (offsets.map (fun o => o ^ 2)).sum := by
    apply List.sum_nonneg
    intro x hx
    obtain ⟨o, _, rfl⟩ := List.mem_map.mp hx
    positivity
  rw [hobj]
  unfold Hypertuning.loss
  exact ⟨Real.sqrt_nonneg _, Real.sq_sqrt hsum⟩

/-- Witness for C6: concrete offsets `[3, 4]` through a successful
pipeline give a nonnegative loss whose square is `9 + 16`. -/
theorem C6_loss_is_rss_witness :
    0 ≤ Hypertuning.objective (fun _ => Except.ok [3, 4]) ⟨5, 5, 3 / 10, 5⟩ ∧
    (Hypertuning.objective (fun _ => Except.ok [3, 4]) ⟨5, 5, 3 / 10, 5⟩) ^ 2 =
      (([3, 4] : List ℝ).map (fun o => o ^ 2)).sum :=
  C6_loss_is_rss (fun _ => Except.ok [3, 4]) ⟨5, 5, 3 / 10, 5⟩ [3, 4] rfl

/-- **C7.** The search driver's startup decides resume vs. fresh-start
solely by the presence of the state file: if the file exists the
optimizer is deserialized from it, so its accumulated observation count
is whatever was stored (not reset to zero); if it does not exist a
fresh optimizer with zero observations is constructed. -/
theorem C7_startup_resume (st : Hypertuning.Optimizer) :
    Hypertuning.startup (some st) = st ∧
    (Hypertuning.startup (some st)).n_observations = st.n_observations ∧
    Hypertuning.startup none = Hypertuning.freshOptimizer ∧
    (Hypertuning.startup none).n_observations = 0 :=
  ⟨rfl, rfl, rfl, rfl⟩

/-- **C2.** For every PSF model returned by either builder
(`make_epsf_fit` or `make_epsf_combine`), the kernel array is square,
and after the builder's normalization step the kernel sums to 1 (unit
flux).  The external resampler and the external `EPSFBuilder` core are
assumed to preserve squareness of the (square) input cutouts, and the
pre-normalization kernels to carry nonzero total flux (normalizable,
as the spec requires). -/
theorem C2_epsf_square_normalized
    (upsample : ℕ → ℚ → ℚ → Photometry.Kernel → Photometry.Kernel)
    (core : List Photometry.Star → Photometry.Kernel)
    (stars : List Photometry.Star)
    (hu : ∀ f xs ys img, Photometry.IsSquare img →
      Photometry.IsSquare (upsample f xs ys img))
    (hstars : ∀ st ∈ stars, Photometry.IsSquare st.data)
    (hcore : Photometry.IsSquare (core stars))
    (hcs : Photometry.total (Photometry.combined upsample stars) ≠ 0)
    (hfs : Photometry.total (core stars) ≠ 0) :
    Photometry.IsSquare (Photometry.make_epsf_combine upsample stars).data ∧
    Photometry.total (Photometry.make_epsf_combine upsample stars).data = 1 ∧
    Photometry.IsSquare (Photometry.make_epsf_fit core stars).data ∧
    Photometry.total (Photometry.make_epsf_fit core stars).data = 1 := by
  have hcsq : Photometry.IsSquare (Photometry.combined upsample stars) := by
    apply Photometry.isSquare_medianStack
    intro k hk
    obtain ⟨st, hst, rfl⟩ := List.mem_map.mp hk
    exact hu _ _ _ _ (hstars st hst)
  exact ⟨Photometry.isSquare_normalize _ hcsq,
         Photometry.total_normalize _ hcs,
         Photometry.isSquare_normalize _ hcore,
         Photometry.total_normalize _ hfs⟩

/-- Witness for C2: a single 1×1 cutout `[[2]]` through a
shape-preserving resampler gives the combined kernel `[[2]]`, and a
core producing `[[2]]`; both normalized models are square with unit
total flux. -/
theorem C2_epsf_square_normalized_witness :
    Photometry.IsSquare
      (Photometry.make_epsf_combine (fun _ _ _ img => img)
        [⟨[[2]], (0, 0)⟩]).data ∧
    Photometry.total
      (Photometry.make_epsf_combine (fun _ _ _ img => img)
        [⟨[[2]], (0, 0)⟩]).data = 1 ∧
    Photometry.IsSquare
      (Photometry.make_epsf_fit (fun _ => [[2]]) [⟨[[2]], (0, 0)⟩]).data ∧
    Photometry.total
      (Photometry.make_epsf_fit (fun _ => [[2]]) [⟨[[2]], (0, 0)⟩]).data = 1 :=
  C2_epsf_square_normalized (fun _ _ _ img => img) (fun _ => [[2]])
    [⟨[[2]], (0, 0)⟩]
    (fun _ _ _ _ h => h)
    (by decide)
    (by decide)
    (by norm_num [Photometry.total, Photometry.combined, Photometry.medianStack,
      Photometry.gridOf, Photometry.shape0, Photometry.shape1, Photometry.median,
      List.range_succ])
    (by norm_num [Photometry.total])

/-- **C3 (evaluation at the failing input).** With zero candidates the
builders do not fail: `make_epsf_combine` returns the degenerate model
with an empty kernel (the division by the zero star count and the
median of the empty stack propagate as degenerate values, `nan` in
numpy), and `make_epsf_fit` unconditionally returns whatever the
builder core produces — neither has an error channel or an emptiness
check. -/
theorem C3_empty_candidates_silent :
    Photometry.make_epsf_combine (fun _ _ _ img => img) [] =
      ⟨[], (Photometry.upsample_factor, Photometry.upsample_factor)⟩ ∧
    ∀ core : List Photometry.Star → Photometry.Kernel,
      Photometry.make_epsf_fit core [] =
        ⟨Photometry.normalize (core []),
         (Photometry.oversampling, Photometry.oversampling)⟩ :=
  ⟨rfl, fun _ => rfl⟩

/-- **C4.** `FWHM_estimate`, when the PSF kernel is square and the
oversampling factor equal on both axes, returns the FWHM of the
(externally) fitted symmetric 2D Gaussian divided by the oversampling
factor; when the kernel is not square or the oversampling is
asymmetric, it fails its assertion instead of returning a value. -/
theorem C4_fwhm_estimate (fitFwhm : Photometry.Kernel → ℚ)
    (psf : Photometry.EPSF) :
    (Photometry.shape0 psf.data = Photometry.shape1 psf.data →
      psf.oversampling.1 = psf.oversampling.2 →
      Photometry.FWHM_estimate fitFwhm psf =
        Except.ok (fitFwhm psf.data / (psf.oversampling.1 : ℚ))) ∧
    (Photometry.shape0 psf.data ≠ Photometry.shape1 psf.data ∨
      psf.oversampling.1 ≠ psf.oversampling.2 →
      Photometry.FWHM_estimate fitFwhm psf = Except.error "AssertionError") := by
  unfold Photometry.FWHM_estimate
  constructor
  · intro h1 h2
    rw [if_neg (by simp [h1]), if_neg (by simp [h2])]
  · intro h
    rcases h with h | h
    · rw [if_pos h]
    · by_cases hsq : Photometry.shape0 psf.data = Photometry.shape1 psf.data
      · rw [if_neg (by simp [hsq]), if_pos h]
      · rw [if_pos hsq]

/-- Witness for C4: a square 1×1 kernel with oversampling `(4, 4)` and a
fit reporting FWHM 2 yields `ok (2 / 4)`; a 2×1 kernel and an
asymmetric `(4, 2)` oversampling each raise the assertion. -/
theorem C4_fwhm_estimate_witness :
    Photometry.FWHM_estimate (fun _ => 2) ⟨[[1]], (4, 4)⟩ =
      Except.ok ((2 : ℚ) / 4) ∧
    Photometry.FWHM_estimate (fun _ => 2) ⟨[[1], [2]], (4, 4)⟩ =
      Except.error "AssertionError" ∧
    Photometry.FWHM_estimate (fun _ => 2) ⟨[[1]], (4, 2)⟩ =
      Except.error "AssertionError" :=
  ⟨(C4_fwhm_estimate (fun _ => 2) ⟨[[1]], (4, 4)⟩).1 rfl rfl,
   (C4_fwhm_estimate (fun _ => 2) ⟨[[1], [2]], (4, 4)⟩).2 (Or.inl (by decide)),
   (C4_fwhm_estimate (fun _ => 2) ⟨[[1]], (4, 2)⟩).2 (Or.inr (by decide))⟩

/-- **C9 (counterexample).** Two candidates at `(0,0)` and `(1,0)` with
cutoff distance `d = 1`: each candidate's nearest neighbour is at
distance exactly `d`, yet `cut_close_stars` removes both (the mask is
the strict comparison `nearest > cutoff_dist`), contradicting the claim
that a candidate whose nearest neighbour is at distance exactly `d` is
kept. -/
theorem C9_boundary_removed :
    Photometry.nearestDist [⟨0, 0, 0⟩, ⟨1, 0, 1⟩] 0 = some 1 ∧
    Photometry.cut_close_stars [⟨0, 0, 0⟩, ⟨1, 0, 1⟩] 1 = [] := by
  have h0 : Photometry.nearestDist [⟨0, 0, 0⟩, ⟨1, 0, 1⟩] 0 = some 1 := by
    have hd : Photometry.dist2d (0, 0) (1, 0) = 1 := by
      unfold Photometry.dist2d
      norm_num
    show Photometry.minOpt [Photometry.dist2d (0, 0) (1, 0)] = some 1
    rw [hd]
    rfl
  have h1 : Photometry.nearestDist [⟨0, 0, 0⟩, ⟨1, 0, 1⟩] 1 = some 1 := by
    have hd : Photometry.dist2d (1, 0) (0, 0) = 1 := by
      unfold Photometry.dist2d
      norm_num
    show Photometry.minOpt [Photometry.dist2d (1, 0) (0, 0)] = some 1
    rw [hd]
    rfl
  exact ⟨h0, by norm_num [Photometry.cut_close_stars, List.range_succ, h0, h1]⟩

open scoped Classical in
/-- **C9 (amended).** `cut_close_stars` keeps exactly the candidates
whose nearest-neighbour distance is strictly greater than the cutoff
`d` (a lone candidate, with no neighbour, is kept); candidates whose
nearest neighbour is at distance `≤ d` — in particular at exactly `d` —
are removed. -/
theorem C9_cut_close_stars_strict (rows : List Photometry.PeakRow) (d : ℝ)
    (r : Photometry.PeakRow) :
    r ∈ Photometry.cut_close_stars rows d ↔
      ∃ i, i < rows.length ∧ rows.getD i default = r ∧
        ∀ m, Photometry.nearestDist rows i = some m → d < m := by
  unfold Photometry.cut_close_stars
  rw [List.mem_map]
  constructor
  · rintro ⟨i, hi, rfl⟩
    rw [List.mem_filter, List.mem_range] at hi
    refine ⟨i, hi.1, rfl, fun m hm => ?_⟩
    have h2 := hi.2
    rw [hm] at h2
    exact of_decide_eq_true h2
  · rintro ⟨i, hlen, rfl, hall⟩
    refine ⟨i, ?_, rfl⟩
    rw [List.mem_filter, List.mem_range]
    refine ⟨hlen, ?_⟩
    cases hnd : Photometry.nearestDist rows i with
    | none => rfl
    | some m => exact decide_eq_true (hall m hnd)

/-- **C8 (evaluation at the failing input).** With two jobs `[0, 1]` in
the list and both ready at the start of the pass, the
completion-collection loop tells job `0` and removes it, but the
iterator then skips job `1`: job `1` is neither told nor removed in
this pass, contradicting the claim that no ready job is passed over. -/
theorem C8_ready_job_skipped :
    Hypertuning.tellPass (fun _ => true) [0, 1] = ([0], [1]) ∧
    1 ∉ (Hypertuning.tellPass (fun _ => true) [0, 1]).1 ∧
    1 ∈ (Hypertuning.tellPass (fun _ => true) [0, 1]).2 := by
  refine ⟨rfl, ?_, ?_⟩ <;> decide
